import Mathlib

/-!
Verification of the model-lifecycle service core (models.py, app.py,
grpc_server.py): the parameter normalizer, the model class registry, the
metrics calculator, the training orchestrator and the predict/retrain
facade over the model catalog.

The Python code is shallowly embedded: dynamically typed parameter values
become the inductive type PyVal; Python dicts (which preserve insertion
order) become association lists; the ambient MLflow tracking state, the
logger and the SQLAlchemy catalog become an explicit ServerState record
threaded through the operations; exceptions become Except. Python floats
are modelled by exact rationals, and the external float() builtin is
modelled on plain decimal/exponent literals. The external sklearn
estimators are an abstract capability (a function from class name, params
and data to predictions or an error), exactly the capability surface the
service consumes.
-/

/-- Dynamically typed Python value, as it appears in a params mapping:
an int, a float (modelled as an exact rational), a string, a bool or None. -/
inductive PyVal where
  | pyInt (n : Int)
  | pyFloat (q : Rat)
  | pyStr (s : String)
  | pyBool (b : Bool)
  | pyNone
  deriving DecidableEq, Repr

/-- Value denoted by a list of decimal digit characters, most significant
first; this is what the int() builtin returns on a digit-only string. -/
def digitsVal (l : List Char) : Nat :=
  l.foldl (fun n c => 10 * n + (c.toNat - 48)) 0

/-- Model of str.isdigit for ASCII strings: nonempty and all characters
are decimal digits. -/
def pyIsdigit (s : String) : Bool :=
  !s.data.isEmpty && s.data.all Char.isDigit

/-- Exponent part of a float literal: optional sign followed by at least
one digit. -/
def parseExpPart (l : List Char) : Option Int :=
  match l with
  | '-' :: r => if !r.isEmpty && r.all Char.isDigit then some (-(digitsVal r : Int)) else none
  | '+' :: r => if !r.isEmpty && r.all Char.isDigit then some ((digitsVal r : Int)) else none
  | r => if !r.isEmpty && r.all Char.isDigit then some ((digitsVal r : Int)) else none

/-- Integer power of ten as a rational. -/
def ratPow10 (e : Int) : Rat :=
  match e with
  | .ofNat n => (10 : Rat) ^ n
  | .negSucc n => 1 / (10 : Rat) ^ (n + 1)

/-- Scale a parsed mantissa by a trailing exponent part. -/
def applyExp (m : Rat) (l : List Char) : Option Rat :=
  (parseExpPart l).map (fun e => m * ratPow10 e)

/-- Unsigned decimal float literal: digits, digits followed by a point and
optional digits, or a point followed by digits, each optionally followed
by an exponent. -/
def parseMantissa (l : List Char) : Option Rat :=
  let ip := l.takeWhile Char.isDigit
  let r1 := l.dropWhile Char.isDigit
  match r1 with
  | [] => if ip.isEmpty then none else some ((digitsVal ip : Rat))
  | '.' :: r2 =>
    let fp := r2.takeWhile Char.isDigit
    let r3 := r2.dropWhile Char.isDigit
    if ip.isEmpty && fp.isEmpty then none
    else
      let m : Rat := (digitsVal ip : Rat) + (digitsVal fp : Rat) / (10 : Rat) ^ fp.length
      match r3 with
      | [] => some m
      | 'e' :: r4 => applyExp m r4
      | 'E' :: r4 => applyExp m r4
      | _ => none
  | 'e' :: r4 => if ip.isEmpty then none else applyExp ((digitsVal ip : Rat)) r4
  | 'E' :: r4 => if ip.isEmpty then none else applyExp ((digitsVal ip : Rat)) r4
  | _ => none

/-- Model of the float() builtin on plain decimal literals: an optional
sign followed by an unsigned decimal literal; none when parsing fails
(the ValueError case). -/
def pyFloatOfString (s : String) : Option Rat :=
  match s.data with
  | '-' :: r => (parseMantissa r).map (fun q => -q)
  | '+' :: r => parseMantissa r
  | l => parseMantissa l

/-- Conversion applied by convert_params to a single value (models.py
lines 62-75): a digit-only string becomes the int it denotes, any other
string becomes a float when float() succeeds and is kept as the original
string otherwise, and every non-string value passes through unchanged. -/
def convertValue (v : PyVal) : PyVal :=
  match v with
  | .pyStr s =>
    if pyIsdigit s then .pyInt ((digitsVal s.data : Int))
    else
      match pyFloatOfString s with
      | some q => .pyFloat q
      | none => .pyStr s
  | v => v

/-- Parameter Normalizer (models.py convert_params): rebuilds the mapping
key by key, converting each value with convertValue. -/
def convert_params (params : List (String × PyVal)) : List (String × PyVal) :=
  params.map (fun kv => (kv.1, convertValue kv.2))

/-! Metrics Calculator (models.py calculate_metrics). The sklearn metric
routines are embedded on the zipped list of (true, predicted) label
pairs: accuracy is the fraction of matching pairs; precision and recall
use weighted averaging over the observed class labels with zero-division
treated as 0; mismatched-length or empty inputs make the external
routines fail, which models.py catches, returning all-zero metrics. -/

/-- Fraction of positions where the true and predicted labels agree. -/
def accuracy_score (z : List (Int × Int)) : Rat :=
  (z.countP (fun p => p.1 == p.2) : Rat) / (z.length : Rat)

/-- Class labels observed in either the true or the predicted sequence,
without duplicates. -/
def classLabels (z : List (Int × Int)) : List Int :=
  (z.map Prod.fst ++ z.map Prod.snd).dedup

/-- Number of samples whose true label is c (the support of class c). -/
def supportCount (z : List (Int × Int)) (c : Int) : Nat :=
  z.countP (fun p => p.1 == c)

/-- Number of samples predicted as class c. -/
def predCount (z : List (Int × Int)) (c : Int) : Nat :=
  z.countP (fun p => p.2 == c)

/-- Number of samples of class c predicted as class c. -/
def truePosCount (z : List (Int × Int)) (c : Int) : Nat :=
  z.countP (fun p => p.1 == c && p.2 == c)

/-- Precision of a single class, with zero-division treated as 0. -/
def classPrecision (z : List (Int × Int)) (c : Int) : Rat :=
  if predCount z c = 0 then 0 else (truePosCount z c : Rat) / (predCount z c : Rat)

/-- Recall of a single class, with zero-division treated as 0. -/
def classRecall (z : List (Int × Int)) (c : Int) : Rat :=
  if supportCount z c = 0 then 0 else (truePosCount z c : Rat) / (supportCount z c : Rat)

/-- Support-weighted average of a per-class score over the observed
classes. -/
def weightedAvg (z : List (Int × Int)) (f : Int → Rat) : Rat :=
  (((classLabels z).map (fun c => (supportCount z c : Rat) * f c)).sum) / (z.length : Rat)

/-- Weighted-average precision over the observed classes. -/
def precision_score (z : List (Int × Int)) : Rat :=
  weightedAvg z (classPrecision z)

/-- Weighted-average recall over the observed classes. -/
def recall_score (z : List (Int × Int)) : Rat :=
  weightedAvg z (classRecall z)

/-- Body of the try block of calculate_metrics (models.py lines 84-95):
the external metric routines reject mismatched-length and empty inputs;
otherwise they produce the three named metrics in order. -/
def metricsCore (y_true y_pred : List Int) : Except String (List (String × Rat)) :=
  if y_true.length = y_pred.length then
    if y_true.length = 0 then
      .error "zero samples"
    else
      let z := y_true.zip y_pred
      .ok [("accuracy", accuracy_score z),
           ("precision", precision_score z),
           ("recall", recall_score z)]
  else
    .error "inconsistent numbers of samples"

/-- Default metrics returned by the except branch of calculate_metrics
(models.py lines 100-104). -/
def zeroMetrics : List (String × Rat) :=
  [("accuracy", 0), ("precision", 0), ("recall", 0)]

/-- Metrics Calculator (models.py calculate_metrics): computes the three
metrics, and on any internal failure returns the all-zero defaults
instead of propagating the failure. -/
def calculate_metrics (y_true y_pred : List Int) : List (String × Rat) :=
  match metricsCore y_true y_pred with
  | .ok m => m
  | .error _ => zeroMetrics

/-- Catalog record for a trained model (models.py class MLModel). The
ambient creation timestamp is made explicit as a Nat parameter. -/
structure MLModel where
  id : String
  model_type : String
  params : List (String × PyVal)
  file_path : String
  created_at : Nat
  metrics : List (String × Rat)
  deriving DecidableEq, Repr

/-- Record constructor (models.py create_model_record): builds the
catalog record from its fields; the now argument makes the ambient
datetime.now() call explicit. -/
def create_model_record (model_id : String) (model_type : String)
    (params : List (String × PyVal)) (file_path : String)
    (metrics : List (String × Rat)) (now : Nat) : MLModel :=
  { id := model_id, model_type := model_type, params := params,
    file_path := file_path, created_at := now, metrics := metrics }

/-! Model Class Registry, tracking-store state and Training Orchestrator
(models.py AVAILABLE_MODELS and train_and_log_model), and the transport
endpoints that drive them (app.py TrainModel.post and
ModelRetrain.post). -/

/-- Registry entry: the estimator class name (the capability token), the
advisory hyperparameter names and a human description (a value of
models.py AVAILABLE_MODELS). -/
structure ModelInfo where
  className : String
  hyperparameters : List String
  description : String
  deriving DecidableEq, Repr

/-- Model Class Registry (models.py AVAILABLE_MODELS): a static mapping
from model-type identifier to its entry. -/
def AVAILABLE_MODELS : List (String × ModelInfo) :=
  [("random_forest",
    { className := "RandomForestClassifier",
      hyperparameters := ["n_estimators", "max_depth", "random_state"],
      description := "Random Forest Classifier" }),
   ("logistic_regression",
    { className := "LogisticRegression",
      hyperparameters := ["C", "solver", "max_iter"],
      description := "Logistic Regression" })]

/-- Registry lookup, as performed by the dict indexing in models.py line
121 and by the membership test in app.py line 165. -/
def lookupModel (model_type : String) : Option ModelInfo :=
  (AVAILABLE_MODELS.find? (fun kv => kv.1 == model_type)).map Prod.snd

/-- Failure taxonomy surfaced by the core to the transport layer: an
unsupported model type, a constructor or fit failure inside training, or
a missing catalog record. -/
inductive MLError where
  | unsupportedModelType (model_type : String)
  | trainingFailure (msg : String)
  | notFound
  deriving DecidableEq, Repr

/-- Calls made to the tracking store, recorded in order as a trace. -/
inductive TrackEvent where
  | endRun
  | startRun (runId : String)
  | logParamEvent (key value : String)
  | logParamsEvent (params : List (String × PyVal))
  | logMetricsEvent (metrics : List (String × Rat))
  | logModelEvent (artifactPath : String)
  deriving DecidableEq, Repr

/-- Ambient server state made explicit: the active-run marker of the
tracking store, its fresh-run counter and call trace, the warning-level
log, the catalog table and the clock feeding datetime.now(). -/
structure ServerState where
  activeRun : Option String
  nextRunNum : Nat
  events : List TrackEvent
  warnings : List String
  catalog : List MLModel
  clock : Nat
  deriving DecidableEq, Repr

/-- Run identifier issued by the tracking store for its n-th run. -/
def freshRunId (n : Nat) : String :=
  "run-" ++ toString n

/-- Warning message logged when a stale active run is force-closed
(models.py line 117). -/
def staleRunWarning : String :=
  "Found active MLflow run. Ending it forcefully."

/-- Estimator capability consumed from sklearn: given the registry class
name, the normalized constructor params and the training data, either
fail (invalid hyperparameters, shape or numerical errors) or fit and
return the in-sample predictions. -/
def EstimatorFn : Type :=
  String → List (String × PyVal) → List (List Rat) → List Int → Except String (List Int)

/-- Training Orchestrator (models.py train_and_log_model): force-close a
stale active run with a warning, normalize the params, resolve the model
class, construct-fit-predict through the estimator capability, compute
metrics, then log everything to the tracking store inside a fresh run
and return the run id, the metrics and the artifact URI built from the
run id. -/
def train_and_log_model (est : EstimatorFn) (model_type : String)
    (params : List (String × PyVal)) (X : List (List Rat)) (y : List Int)
    (st : ServerState) :
    Except MLError (String × List (String × Rat) × String) × ServerState :=
  let st1 :=
    if st.activeRun.isSome then
      { st with activeRun := none,
                events := st.events ++ [TrackEvent.endRun],
                warnings := st.warnings ++ [staleRunWarning] }
    else st
  let converted_params := convert_params params
  match lookupModel model_type with
  | none => (.error (.unsupportedModelType model_type), st1)
  | some info =>
    match est info.className converted_params X y with
    | .error msg => (.error (.trainingFailure msg), st1)
    | .ok y_pred =>
      let metrics := calculate_metrics y y_pred
      let run_id := freshRunId st1.nextRunNum
      let model_uri := "runs:/" ++ run_id ++ "/model"
      let st2 :=
        { st1 with
          activeRun := none,
          nextRunNum := st1.nextRunNum + 1,
          events := st1.events ++
            [TrackEvent.startRun run_id,
             TrackEvent.logParamEvent "model_type" model_type,
             TrackEvent.logParamsEvent converted_params,
             TrackEvent.logMetricsEvent metrics,
             TrackEvent.logModelEvent "model",
             TrackEvent.endRun] }
      (.ok (run_id, metrics, model_uri), st2)

/-- Catalog lookup by primary key (the filter_by id query of app.py). -/
def findRecord (model_id : String) (catalog : List MLModel) : Option MLModel :=
  catalog.find? (fun r => r.id == model_id)

/-- Train endpoint core (app.py TrainModel.post lines 165-181): reject
unregistered model types, train through the orchestrator, propagate its
failure, and on success persist the new record and answer with the run
id and metrics. -/
def trainEndpoint (est : EstimatorFn) (model_type : String)
    (params : List (String × PyVal)) (X : List (List Rat)) (y : List Int)
    (st : ServerState) :
    Except MLError (String × List (String × Rat)) × ServerState :=
  if (lookupModel model_type).isNone then
    (.error (.unsupportedModelType model_type), st)
  else
    match train_and_log_model est model_type params X y st with
    | (.error e, st1) => (.error e, st1)
    | (.ok (run_id, metrics, model_uri), st1) =>
      let record := create_model_record run_id model_type params model_uri metrics st1.clock
      (.ok (run_id, metrics), { st1 with catalog := st1.catalog ++ [record] })

/-- Retrain endpoint core (app.py ModelRetrain.post lines 252-276): look
up the record, fail NotFound when absent, retrain through the
orchestrator with the stored model type and params of the record and the new
data, propagate an orchestrator failure unchanged, and only on success
delete the old record and insert the new one under the new run id. -/
def retrainEndpoint (est : EstimatorFn) (model_id : String) (X : List (List Rat))
    (y : List Int) (st : ServerState) :
    Except MLError (String × List (String × Rat)) × ServerState :=
  match findRecord model_id st.catalog with
  | none => (.error .notFound, st)
  | some record =>
    match train_and_log_model est record.model_type record.params X y st with
    | (.error e, st1) => (.error e, st1)
    | (.ok (new_run_id, metrics, new_model_uri), st1) =>
      let remaining := st1.catalog.filter (fun r => !(r.id == model_id))
      let new_record := create_model_record new_run_id record.model_type record.params
        new_model_uri metrics st1.clock
      (.ok (new_run_id, metrics), { st1 with catalog := remaining ++ [new_record] })

instance {ε α : Type} [DecidableEq ε] [DecidableEq α] : DecidableEq (Except ε α) :=
  fun a b =>
    match a, b with
    | .ok x, .ok y => decidable_of_iff (x = y) (by simp)
    | .error x, .error y => decidable_of_iff (x = y) (by simp)
    | .ok _, .error _ => isFalse (fun hc => by cases hc)
    | .error _, .ok _ => isFalse (fun hc => by cases hc)

/-! Concrete fixtures instantiating the abstract estimator capability and
the server state, used to exercise the theorems on the example data of
the test suite (tests/test_models.py). -/

/-- Estimator that fits perfectly: its in-sample predictions echo the
training labels. -/
def estEcho : EstimatorFn := fun _ _ _ y => Except.ok y

/-- Estimator whose construct-fit-predict pipeline always fails. -/
def estFail : EstimatorFn := fun _ _ _ _ => Except.error "fit failed"

/-- Fresh server state: no active run, empty trace and empty catalog. -/
def initState : ServerState :=
  { activeRun := none, nextRunNum := 0, events := [], warnings := [],
    catalog := [], clock := 0 }

/-- Example raw params of the test suite. -/
def demoParams : List (String × PyVal) :=
  [("n_estimators", PyVal.pyStr "10"), ("max_depth", PyVal.pyStr "3")]

/-- Example feature matrix of the test suite. -/
def demoX : List (List Rat) :=
  [[0, 0], [0, 1], [1, 0], [1, 1]]

/-- Example label vector of the test suite. -/
def demoY : List Int :=
  [0, 1, 1, 0]

/-- Metrics of a perfect in-sample fit on the example data. -/
def demoMetrics : List (String × Rat) :=
  calculate_metrics demoY demoY

/-- A pre-existing catalog record to retrain. -/
def demoRecord : MLModel :=
  { id := "old-run", model_type := "random_forest", params := demoParams,
    file_path := "runs:/old-run/model", created_at := 0, metrics := zeroMetrics }

/-- Server state whose catalog holds exactly the record demoRecord. -/
def catState : ServerState :=
  { initState with catalog := [demoRecord] }

/-- Server state with a stale open tracking run. -/
def staleState : ServerState :=
  { initState with activeRun := some "stale" }

/-! Helper lemmas about the normalizer. -/

theorem takeWhile_of_all {p : Char → Bool} :
    ∀ l : List Char, l.all p = true → l.takeWhile p = l ∧ l.dropWhile p = [] := by
  intro l h
  induction l with
  | nil => exact ⟨rfl, rfl⟩
  | cons c t ih =>
    simp only [List.all_cons, Bool.and_eq_true] at h
    simp only [List.takeWhile_cons, List.dropWhile_cons, h.1, if_pos]
    have ht := ih h.2
    exact ⟨by rw [ht.1], ht.2⟩

theorem parseMantissa_digits (l : List Char) (hne : l ≠ [])
    (hdig : l.all Char.isDigit = true) :
    parseMantissa l = some ((digitsVal l : Rat)) := by
  have h := takeWhile_of_all l hdig
  unfold parseMantissa
  rw [h.1, h.2]
  simp [List.isEmpty_iff, hne]

theorem data_dash_append (s : String) : ("-" ++ s).data = '-' :: s.data := by
  rw [String.data_append]
  rfl

theorem pyIsdigit_neg (s : String) :
    pyIsdigit ("-" ++ s) = false := by
  simp [pyIsdigit, data_dash_append, Char.isDigit]

theorem pyFloatOfString_neg_digits (s : String) (hne : s.data ≠ [])
    (hdig : s.data.all Char.isDigit = true) :
    pyFloatOfString ("-" ++ s) = some (-((digitsVal s.data : Rat))) := by
  unfold pyFloatOfString
  rw [data_dash_append]
  simp [parseMantissa_digits s.data hne hdig]

theorem convertValue_idem (v : PyVal) :
    convertValue (convertValue v) = convertValue v := by
  cases v with
  | pyStr s =>
    by_cases h : pyIsdigit s = true
    · simp [convertValue, h]
    · rw [Bool.not_eq_true] at h
      cases hf : pyFloatOfString s with
      | some q => simp [convertValue, h, hf]
      | none => simp [convertValue, h, hf]
  | pyInt n => rfl
  | pyFloat q => rfl
  | pyBool b => rfl
  | pyNone => rfl

/-- C2: convert_params returns a mapping with exactly the same keys (in
order and multiplicity), where each digit-only string value becomes the
integer it denotes, each other string value becomes a float when float
parsing succeeds and stays the original string otherwise, and each
non-string value is returned unchanged with its original type. -/
theorem convert_params_contract (ps : List (String × PyVal)) :
    (convert_params ps).map Prod.fst = ps.map Prod.fst ∧
    ∀ i : Nat, ∀ hi : i < ps.length, ∀ hi2 : i < (convert_params ps).length,
      ((convert_params ps).get ⟨i, hi2⟩).1 = (ps.get ⟨i, hi⟩).1 ∧
      (∀ s, (ps.get ⟨i, hi⟩).2 = .pyStr s →
        (pyIsdigit s = true →
          ((convert_params ps).get ⟨i, hi2⟩).2 = .pyInt ((digitsVal s.data : Int))) ∧
        (pyIsdigit s = false → ∀ q, pyFloatOfString s = some q →
          ((convert_params ps).get ⟨i, hi2⟩).2 = .pyFloat q) ∧
        (pyIsdigit s = false → pyFloatOfString s = none →
          ((convert_params ps).get ⟨i, hi2⟩).2 = .pyStr s)) ∧
      ((∀ s, (ps.get ⟨i, hi⟩).2 ≠ .pyStr s) →
        ((convert_params ps).get ⟨i, hi2⟩).2 = (ps.get ⟨i, hi⟩).2) := by
  constructor
  · simp [convert_params, List.map_map, Function.comp]
  · intro i hi hi2
    have hget : (convert_params ps).get ⟨i, hi2⟩
        = ((ps.get ⟨i, hi⟩).1, convertValue (ps.get ⟨i, hi⟩).2) := by
      simp [convert_params]
    rw [hget]
    refine ⟨rfl, ?_, ?_⟩
    · intro s hs
      rw [hs]
      refine ⟨?_, ?_, ?_⟩
      · intro hd
        simp [convertValue, hd]
      · intro hd q hq
        simp [convertValue, hd, hq]
      · intro hd hq
        simp [convertValue, hd, hq]
    · intro hns
      cases hv : (ps.get ⟨i, hi⟩).2 with
      | pyStr s => exact absurd hv (hns s)
      | pyInt n => rfl
      | pyFloat q => rfl
      | pyBool b => rfl
      | pyNone => rfl

theorem convert_params_contract_witness :
    ((convert_params [("n_estimators", PyVal.pyStr "100")]).get ⟨0, by decide⟩).2
      = PyVal.pyInt ((digitsVal ("100" : String).data : Int)) := by
  have h := convert_params_contract [("n_estimators", PyVal.pyStr "100")]
  exact (((h.2 0 (by decide) (by decide)).2.1 "100" rfl).1) (by decide)

/-- C6: a negative-integer string (a minus sign followed by a nonempty
digit-only string) fails the digit-only test, so it is converted through
the float branch: the normalizer maps it to the float of its value, never
to an int. In particular the string consisting of minus followed by 5
becomes the float -5.0, not the integer -5. -/
theorem convertValue_negative_integer_string (s : String) (hne : s.data ≠ [])
    (hdig : s.data.all Char.isDigit = true) :
    convertValue (.pyStr ("-" ++ s)) = .pyFloat (-((digitsVal s.data : Rat))) ∧
    ∀ n : Int, convertValue (.pyStr ("-" ++ s)) ≠ .pyInt n := by
  have h1 := pyIsdigit_neg s
  have h2 := pyFloatOfString_neg_digits s hne hdig
  constructor
  · simp [convertValue, h1, h2]
  · intro n
    simp [convertValue, h1, h2]

theorem convertValue_negative_integer_string_witness :
    convertValue (.pyStr ("-" ++ "5")) = .pyFloat (-((digitsVal ("5" : String).data : Rat))) ∧
    convertValue (.pyStr "-5") = .pyFloat (-5 : Rat) := by
  refine ⟨(convertValue_negative_integer_string "5" (by decide) (by decide)).1, ?_⟩
  decide

/-- C10: the Parameter Normalizer is idempotent: converting an
already-converted params mapping changes nothing, because numeric outputs
are non-strings (which pass through) and string outputs are exactly the
strings that both the digit test and float parsing reject. -/
theorem convert_params_idempotent (ps : List (String × PyVal)) :
    convert_params (convert_params ps) = convert_params ps := by
  unfold convert_params
  rw [List.map_map]
  apply List.map_congr_left
  intro kv _
  simp [Function.comp, convertValue_idem]

/-! Helper lemmas about the metrics calculator. -/

theorem sum_map_add_nat {α : Type} (S : List α) (f g : α → Nat) :
    (S.map (fun c => f c + g c)).sum = (S.map f).sum + (S.map g).sum := by
  induction S with
  | nil => rfl
  | cons a t ih =>
    simp only [List.map_cons, List.sum_cons, ih]
    omega

theorem sum_ite_eq_zero (S : List Int) (a : Int) (ha : a ∉ S) :
    (S.map (fun c => if a = c then (1 : Nat) else 0)).sum = 0 := by
  induction S with
  | nil => rfl
  | cons b t ih =>
    simp only [List.mem_cons, not_or] at ha
    simp [List.map_cons, List.sum_cons, ha.1, ih ha.2]

theorem sum_ite_eq_one (S : List Int) (a : Int) (hnd : S.Nodup) (ha : a ∈ S) :
    (S.map (fun c => if a = c then (1 : Nat) else 0)).sum = 1 := by
  induction S with
  | nil => cases ha
  | cons b t ih =>
    rcases List.mem_cons.mp ha with h | h
    · subst h
      simp [sum_ite_eq_zero t a (List.nodup_cons.mp hnd).1]
    · have hne : a ≠ b := by
        intro he
        subst he
        exact (List.nodup_cons.mp hnd).1 h
      simp [hne, ih (List.nodup_cons.mp hnd).2 h]

theorem sum_support_eq_length (S : List Int) (z : List (Int × Int)) (hnd : S.Nodup)
    (hz : ∀ q ∈ z, q.1 ∈ S) :
    (S.map (fun c => supportCount z c)).sum = z.length := by
  induction z with
  | nil => simp [supportCount]
  | cons q t ih =>
    have h1 : ∀ c ∈ S, supportCount (q :: t) c
        = supportCount t c + (if q.1 = c then 1 else 0) := by
      intro c _
      simp [supportCount, List.countP_cons]
    rw [List.map_congr_left h1,
      sum_map_add_nat S (fun c => supportCount t c) (fun c => if q.1 = c then 1 else 0),
      ih (fun p hp => hz p (List.mem_cons_of_mem q hp)),
      sum_ite_eq_one S q.1 hnd (hz q (List.mem_cons_self q t))]
    simp

theorem fst_mem_classLabels (z : List (Int × Int)) (q : Int × Int) (hq : q ∈ z) :
    q.1 ∈ classLabels z := by
  unfold classLabels
  exact List.mem_dedup.mpr (List.mem_append_left _ (List.mem_map_of_mem Prod.fst hq))

theorem truePos_le_pred (z : List (Int × Int)) (c : Int) :
    truePosCount z c ≤ predCount z c := by
  apply List.countP_mono_left
  intro x _ hx
  exact (Bool.and_eq_true _ _ |>.mp hx).2

theorem truePos_le_support (z : List (Int × Int)) (c : Int) :
    truePosCount z c ≤ supportCount z c := by
  apply List.countP_mono_left
  intro x _ hx
  exact (Bool.and_eq_true _ _ |>.mp hx).1

theorem classPrecision_bounds (z : List (Int × Int)) (c : Int) :
    0 ≤ classPrecision z c ∧ classPrecision z c ≤ 1 := by
  unfold classPrecision
  split
  · exact ⟨le_refl 0, zero_le_one⟩
  · rename_i hne
    have hpos : 0 < (predCount z c : Rat) := by
      exact_mod_cast Nat.pos_of_ne_zero hne
    constructor
    · exact div_nonneg (Nat.cast_nonneg _) (Nat.cast_nonneg _)
    · rw [div_le_one hpos]
      exact_mod_cast truePos_le_pred z c

theorem classRecall_bounds (z : List (Int × Int)) (c : Int) :
    0 ≤ classRecall z c ∧ classRecall z c ≤ 1 := by
  unfold classRecall
  split
  · exact ⟨le_refl 0, zero_le_one⟩
  · rename_i hne
    have hpos : 0 < (supportCount z c : Rat) := by
      exact_mod_cast Nat.pos_of_ne_zero hne
    constructor
    · exact div_nonneg (Nat.cast_nonneg _) (Nat.cast_nonneg _)
    · rw [div_le_one hpos]
      exact_mod_cast truePos_le_support z c

theorem weightedAvg_bounds (z : List (Int × Int)) (hz : z ≠ []) (f : Int → Rat)
    (h0 : ∀ c, 0 ≤ f c) (h1 : ∀ c, f c ≤ 1) :
    0 ≤ weightedAvg z f ∧ weightedAvg z f ≤ 1 := by
  have hlen : 0 < z.length := List.length_pos.mpr hz
  have hlenQ : (0 : Rat) < (z.length : Rat) := by exact_mod_cast hlen
  have hN0 : 0 ≤ ((classLabels z).map (fun c => (supportCount z c : Rat) * f c)).sum := by
    apply List.sum_nonneg
    intro x hx
    rcases List.mem_map.mp hx with ⟨c, _, rfl⟩
    exact mul_nonneg (Nat.cast_nonneg _) (h0 c)
  have hNle : ((classLabels z).map (fun c => (supportCount z c : Rat) * f c)).sum
      ≤ ((classLabels z).map (fun c => (supportCount z c : Rat))).sum := by
    apply List.sum_le_sum
    intro c _
    calc (supportCount z c : Rat) * f c
        ≤ (supportCount z c : Rat) * 1 := mul_le_mul_of_nonneg_left (h1 c) (Nat.cast_nonneg _)
      _ = (supportCount z c : Rat) := mul_one _
  have hcast : ((classLabels z).map (fun c => (supportCount z c : Rat))).sum
      = ((z.length : Nat) : Rat) := by
    have hmm : (classLabels z).map (fun c => (supportCount z c : Rat))
        = ((classLabels z).map (fun c => supportCount z c)).map (fun n : Nat => (n : Rat)) := by
      rw [List.map_map]
      rfl
    rw [hmm, ← Nat.cast_list_sum,
      sum_support_eq_length (classLabels z) z (List.nodup_dedup _)
        (fun q hq => fst_mem_classLabels z q hq)]
  constructor
  · exact div_nonneg hN0 hlenQ.le
  · rw [weightedAvg, div_le_one hlenQ]
    rw [hcast] at hNle
    exact hNle

theorem accuracy_score_bounds (z : List (Int × Int)) (hz : z ≠ []) :
    0 ≤ accuracy_score z ∧ accuracy_score z ≤ 1 := by
  have hlen : 0 < z.length := List.length_pos.mpr hz
  have hlenQ : (0 : Rat) < (z.length : Rat) := by exact_mod_cast hlen
  constructor
  · exact div_nonneg (Nat.cast_nonneg _) (Nat.cast_nonneg _)
  · rw [accuracy_score, div_le_one hlenQ]
    exact_mod_cast List.countP_le_length _

theorem metricsCore_ok (y_true y_pred : List Int) (hlen : y_true.length = y_pred.length)
    (h0 : y_true.length ≠ 0) :
    metricsCore y_true y_pred
      = .ok [("accuracy", accuracy_score (y_true.zip y_pred)),
             ("precision", precision_score (y_true.zip y_pred)),
             ("recall", recall_score (y_true.zip y_pred))] := by
  unfold metricsCore
  rw [if_pos hlen, if_neg h0]

theorem metricsCore_error_cases (y_true y_pred : List Int)
    (h : y_true.length ≠ y_pred.length ∨ y_true.length = 0) :
    ∃ e, metricsCore y_true y_pred = .error e := by
  unfold metricsCore
  by_cases hlen : y_true.length = y_pred.length
  · rcases h with h | h
    · exact absurd hlen h
    · rw [if_pos hlen, if_pos h]
      exact ⟨_, rfl⟩
  · rw [if_neg hlen]
    exact ⟨_, rfl⟩

theorem calculate_metrics_of_core_error (y_true y_pred : List Int) (e : String)
    (h : metricsCore y_true y_pred = .error e) :
    calculate_metrics y_true y_pred = zeroMetrics := by
  unfold calculate_metrics
  rw [h]

theorem calculate_metrics_of_core_ok (y_true y_pred : List Int) (m : List (String × Rat))
    (h : metricsCore y_true y_pred = .ok m) :
    calculate_metrics y_true y_pred = m := by
  unfold calculate_metrics
  rw [h]

theorem zip_ne_nil_of_lengths (y_true y_pred : List Int)
    (hlen : y_true.length = y_pred.length) (h0 : y_true.length ≠ 0) :
    y_true.zip y_pred ≠ [] := by
  intro hnil
  have hl := congrArg List.length hnil
  rw [List.length_zip, hlen, Nat.min_self] at hl
  simp only [List.length_nil] at hl
  exact h0 (hlen.trans hl)

theorem calculate_metrics_ranged (y_true y_pred : List Int) :
    ∃ a p r : Rat,
      calculate_metrics y_true y_pred = [("accuracy", a), ("precision", p), ("recall", r)] ∧
      0 ≤ a ∧ a ≤ 1 ∧ 0 ≤ p ∧ p ≤ 1 ∧ 0 ≤ r ∧ r ≤ 1 := by
  by_cases hlen : y_true.length = y_pred.length
  · by_cases h0 : y_true.length = 0
    · rcases metricsCore_error_cases y_true y_pred (Or.inr h0) with ⟨e, he⟩
      refine ⟨0, 0, 0, ?_, le_refl 0, zero_le_one, le_refl 0, zero_le_one,
        le_refl 0, zero_le_one⟩
      rw [calculate_metrics_of_core_error y_true y_pred e he]
      rfl
    · have hcm := calculate_metrics_of_core_ok y_true y_pred _
        (metricsCore_ok y_true y_pred hlen h0)
      have hz := zip_ne_nil_of_lengths y_true y_pred hlen h0
      have ha := accuracy_score_bounds (y_true.zip y_pred) hz
      have hp := weightedAvg_bounds (y_true.zip y_pred) hz
        (classPrecision (y_true.zip y_pred))
        (fun c => (classPrecision_bounds (y_true.zip y_pred) c).1)
        (fun c => (classPrecision_bounds (y_true.zip y_pred) c).2)
      have hr := weightedAvg_bounds (y_true.zip y_pred) hz
        (classRecall (y_true.zip y_pred))
        (fun c => (classRecall_bounds (y_true.zip y_pred) c).1)
        (fun c => (classRecall_bounds (y_true.zip y_pred) c).2)
      exact ⟨_, _, _, hcm, ha.1, ha.2, hp.1, hp.2, hr.1, hr.2⟩
  · rcases metricsCore_error_cases y_true y_pred (Or.inl hlen) with ⟨e, he⟩
    refine ⟨0, 0, 0, ?_, le_refl 0, zero_le_one, le_refl 0, zero_le_one,
      le_refl 0, zero_le_one⟩
    rw [calculate_metrics_of_core_error y_true y_pred e he]
    rfl

/-- C3: the Metrics Calculator never propagates a failure: whenever the
internal computation fails (in particular on mismatched-length inputs)
it returns exactly the all-zero metrics mapping instead of raising. -/
theorem calculate_metrics_no_raise (y_true y_pred : List Int) :
    (∀ e, metricsCore y_true y_pred = .error e →
      calculate_metrics y_true y_pred = zeroMetrics) ∧
    (y_true.length ≠ y_pred.length →
      calculate_metrics y_true y_pred = zeroMetrics) := by
  constructor
  · intro e he
    unfold calculate_metrics
    rw [he]
  · intro hlen
    unfold calculate_metrics metricsCore
    simp [hlen]

theorem calculate_metrics_no_raise_witness :
    calculate_metrics [0] [] = zeroMetrics ∧
    calculate_metrics [0] []
      = [("accuracy", (0 : Rat)), ("precision", 0), ("recall", 0)] := by
  have h := (calculate_metrics_no_raise [0] []).2 (by decide)
  exact ⟨h, h⟩

/-- C7: every metrics mapping produced by the Metrics Calculator has
exactly the three keys accuracy, precision and recall in that order,
each bound to a value in the interval from 0 to 1 (with the keys present
and bound to 0 on computation failure), and a catalog record built from
such a mapping carries it unchanged in its metrics field. -/
theorem calculate_metrics_keys_and_range (y_true y_pred : List Int) :
    ∃ a p r : Rat,
      calculate_metrics y_true y_pred = [("accuracy", a), ("precision", p), ("recall", r)] ∧
      0 ≤ a ∧ a ≤ 1 ∧ 0 ≤ p ∧ p ≤ 1 ∧ 0 ≤ r ∧ r ≤ 1 ∧
      ∀ (mid mty : String) (pp : List (String × PyVal)) (fp : String) (now : Nat),
        (create_model_record mid mty pp fp (calculate_metrics y_true y_pred) now).metrics
          = calculate_metrics y_true y_pred := by
  rcases calculate_metrics_ranged y_true y_pred with ⟨a, p, r, heq, b1, b2, b3, b4, b5, b6⟩
  exact ⟨a, p, r, heq, b1, b2, b3, b4, b5, b6, fun _ _ _ _ _ => rfl⟩

/-! Helper lemmas about the Training Orchestrator. -/

theorem calculate_metrics_keys (y_true y_pred : List Int) :
    (calculate_metrics y_true y_pred).map Prod.fst = ["accuracy", "precision", "recall"] := by
  obtain ⟨a, p, r, heq, -⟩ := calculate_metrics_ranged y_true y_pred
  rw [heq]
  rfl

theorem train_state_frame (est : EstimatorFn) (model_type : String)
    (params : List (String × PyVal)) (X : List (List Rat)) (y : List Int)
    (st : ServerState) :
    ((train_and_log_model est model_type params X y st).2).catalog = st.catalog ∧
    ((train_and_log_model est model_type params X y st).2).clock = st.clock := by
  simp only [train_and_log_model]
  by_cases hA : st.activeRun.isSome = true <;>
    [rw [if_pos hA]; rw [if_neg hA]] <;>
  · cases hL : lookupModel model_type with
    | none => exact ⟨rfl, rfl⟩
    | some info =>
      dsimp only
      cases hE : est info.className (convert_params params) X y with
      | error msg => exact ⟨rfl, rfl⟩
      | ok y_pred => exact ⟨rfl, rfl⟩

theorem train_err_of_lookup_none (est : EstimatorFn) (model_type : String)
    (params : List (String × PyVal)) (X : List (List Rat)) (y : List Int)
    (st : ServerState) (hL : lookupModel model_type = none) :
    (train_and_log_model est model_type params X y st).1
      = .error (.unsupportedModelType model_type) := by
  simp only [train_and_log_model, hL]

/-- C4: the Training Orchestrator validates the model type against the
Model Class Registry: when the type is absent from the registry the call
fails with the unsupported-model-type error, while resolution of the two
registered keys succeeds. -/
theorem registry_resolution (model_type : String) :
    (lookupModel "random_forest").isSome = true ∧
    (lookupModel "logistic_regression").isSome = true ∧
    (lookupModel model_type = none →
      ∀ (est : EstimatorFn) (params : List (String × PyVal)) (X : List (List Rat))
        (y : List Int) (st : ServerState),
        (train_and_log_model est model_type params X y st).1
          = .error (.unsupportedModelType model_type)) := by
  refine ⟨by decide, by decide, ?_⟩
  intro hL est params X y st
  exact train_err_of_lookup_none est model_type params X y st hL

theorem registry_resolution_witness :
    (train_and_log_model estEcho "no_such_model" demoParams demoX demoY initState).1
      = .error (.unsupportedModelType "no_such_model") :=
  (registry_resolution "no_such_model").2.2 (by decide) estEcho demoParams demoX demoY initState

/-- C5: every successful Training Orchestrator call returns a triple in
which the artifact URI is exactly the runs path built from the returned
run id, the metrics carry the keys accuracy, precision and recall, and
the run id is the identifier of the tracking session the call opened. -/
theorem orchestrator_success_triple (est : EstimatorFn) (model_type : String)
    (params : List (String × PyVal)) (X : List (List Rat)) (y : List Int)
    (st : ServerState) (run_id : String) (metrics : List (String × Rat))
    (artifact_uri : String)
    (h : (train_and_log_model est model_type params X y st).1
      = .ok (run_id, metrics, artifact_uri)) :
    artifact_uri = "runs:/" ++ run_id ++ "/model" ∧
    metrics.map Prod.fst = ["accuracy", "precision", "recall"] ∧
    TrackEvent.startRun run_id ∈ (train_and_log_model est model_type params X y st).2.events := by
  simp only [train_and_log_model] at h ⊢
  by_cases hA : st.activeRun.isSome = true <;>
    [rw [if_pos hA] at h ⊢; rw [if_neg hA] at h ⊢] <;>
  · cases hL : lookupModel model_type with
    | none =>
      rw [hL] at h
      exact absurd h (by simp)
    | some info =>
      rw [hL] at h
      dsimp only at h ⊢
      cases hE : est info.className (convert_params params) X y with
      | error msg =>
        rw [hE] at h
        exact absurd h (by simp)
      | ok y_pred =>
        rw [hE] at h
        dsimp only at h ⊢
        simp only [Except.ok.injEq, Prod.mk.injEq] at h
        obtain ⟨h1, h2, h3⟩ := h
        subst h1
        subst h2
        subst h3
        refine ⟨rfl, calculate_metrics_keys y y_pred, ?_⟩
        simp

theorem orchestrator_success_triple_witness :
    "runs:/run-0/model" = "runs:/" ++ "run-0" ++ "/model" ∧
    demoMetrics.map Prod.fst = ["accuracy", "precision", "recall"] ∧
    TrackEvent.startRun "run-0"
      ∈ (train_and_log_model estEcho "random_forest" demoParams demoX demoY initState).2.events :=
  orchestrator_success_triple estEcho "random_forest" demoParams demoX demoY initState
    "run-0" demoMetrics "runs:/run-0/model" rfl

/-- C8: when the tracking store has a stale open run at the start of an
orchestrator call, the call force-closes it before anything else (the
first tracking action of the call is the close, so training never starts
inside the stale session) and records the recovery as a warning-level
log line. -/
theorem stale_run_force_closed (est : EstimatorFn) (model_type : String)
    (params : List (String × PyVal)) (X : List (List Rat)) (y : List Int)
    (st : ServerState) (r : String) (hA : st.activeRun = some r) :
    (train_and_log_model est model_type params X y st).2.warnings
      = st.warnings ++ [staleRunWarning] ∧
    ∃ tail, (train_and_log_model est model_type params X y st).2.events
      = st.events ++ (TrackEvent.endRun :: tail) := by
  have hA2 : st.activeRun.isSome = true := by rw [hA]; rfl
  simp only [train_and_log_model]
  rw [if_pos hA2]
  cases hL : lookupModel model_type with
  | none => exact ⟨rfl, [], rfl⟩
  | some info =>
    dsimp only
    cases hE : est info.className (convert_params params) X y with
    | error msg => exact ⟨rfl, [], rfl⟩
    | ok y_pred =>
      refine ⟨rfl, [TrackEvent.startRun (freshRunId st.nextRunNum),
        TrackEvent.logParamEvent "model_type" model_type,
        TrackEvent.logParamsEvent (convert_params params),
        TrackEvent.logMetricsEvent (calculate_metrics y y_pred),
        TrackEvent.logModelEvent "model", TrackEvent.endRun], ?_⟩
      simp

theorem stale_run_force_closed_witness :
    (train_and_log_model estEcho "random_forest" demoParams demoX demoY staleState).2.warnings
      = staleState.warnings ++ [staleRunWarning] :=
  (stale_run_force_closed estEcho "random_forest" demoParams demoX demoY staleState
    "stale" rfl).1

/-- C9: a Training Orchestrator call never writes the catalog: whether it
succeeds or fails, the catalog in the resulting state is the input
catalog unchanged; the record is persisted only by the calling endpoint
after the orchestrator returns, as the single appended element. -/
theorem orchestrator_no_catalog_write (est : EstimatorFn) (model_type : String)
    (params : List (String × PyVal)) (X : List (List Rat)) (y : List Int)
    (st : ServerState) :
    (train_and_log_model est model_type params X y st).2.catalog = st.catalog ∧
    (∀ run_id metrics model_uri,
      (train_and_log_model est model_type params X y st).1 = .ok (run_id, metrics, model_uri) →
      (trainEndpoint est model_type params X y st).2.catalog
        = st.catalog ++ [create_model_record run_id model_type params model_uri metrics
            ((train_and_log_model est model_type params X y st).2.clock)]) := by
  refine ⟨(train_state_frame est model_type params X y st).1, ?_⟩
  intro run_id metrics model_uri h
  have hlk : ¬((lookupModel model_type).isNone = true) := by
    intro hn
    have hL : lookupModel model_type = none := Option.isNone_iff_eq_none.mp hn
    rw [train_err_of_lookup_none est model_type params X y st hL] at h
    exact Except.noConfusion h
  have hframe := train_state_frame est model_type params X y st
  rcases htr : train_and_log_model est model_type params X y st with ⟨res, st1⟩
  rw [htr] at h hframe
  dsimp only at hframe ⊢
  replace h : res = .ok (run_id, metrics, model_uri) := h
  subst h
  unfold trainEndpoint
  rw [if_neg hlk, htr]
  dsimp only
  rw [hframe.1]

theorem orchestrator_no_catalog_write_witness :
    (trainEndpoint estEcho "random_forest" demoParams demoX demoY initState).2.catalog
      = initState.catalog ++ [create_model_record "run-0" "random_forest" demoParams
          "runs:/run-0/model" demoMetrics
          ((train_and_log_model estEcho "random_forest" demoParams demoX demoY initState).2.clock)] :=
  (orchestrator_no_catalog_write estEcho "random_forest" demoParams demoX demoY initState).2
    "run-0" demoMetrics "runs:/run-0/model" rfl

/-! Helper lemmas about the catalog lookup. -/

theorem findRecord_some (model_id : String) (catalog : List MLModel) (record : MLModel)
    (h : findRecord model_id catalog = some record) :
    record ∈ catalog ∧ record.id = model_id := by
  refine ⟨List.mem_of_find?_eq_some h, ?_⟩
  have h2 := List.find?_some h
  simpa using h2

theorem findRecord_filter_self (model_id : String) (catalog : List MLModel) :
    findRecord model_id (catalog.filter (fun r => !(r.id == model_id))) = none := by
  unfold findRecord
  rw [List.find?_eq_none]
  intro x hx
  have h2 := (List.mem_filter.mp hx).2
  simp only [Bool.not_eq_true'] at h2
  simp [h2]

theorem findRecord_append (model_id : String) (l1 l2 : List MLModel)
    (h : findRecord model_id l1 = none) :
    findRecord model_id (l1 ++ l2) = findRecord model_id l2 := by
  unfold findRecord at h ⊢
  rw [List.find?_append, h]
  rfl

/-- C1: a retrain call on an existing catalog id: when the Training
Orchestrator fails, the endpoint propagates exactly that failure and the
catalog (hence the original record) is left completely unchanged; when
the orchestrator succeeds under a fresh run id, the endpoint answers
with the new id and metrics, the old id no longer resolves in the
catalog and the new id resolves to the newly inserted record. -/
theorem retrain_catalog_semantics (est : EstimatorFn) (model_id : String)
    (X : List (List Rat)) (y : List Int) (st : ServerState) (record : MLModel)
    (hfind : findRecord model_id st.catalog = some record) :
    (∀ e,
      (train_and_log_model est record.model_type record.params X y st).1 = .error e →
      retrainEndpoint est model_id X y st
        = (.error e, (train_and_log_model est record.model_type record.params X y st).2) ∧
      (retrainEndpoint est model_id X y st).2.catalog = st.catalog) ∧
    (∀ new_run_id metrics new_uri,
      (train_and_log_model est record.model_type record.params X y st).1
        = .ok (new_run_id, metrics, new_uri) →
      (∀ r ∈ st.catalog, r.id ≠ new_run_id) →
      (retrainEndpoint est model_id X y st).1 = .ok (new_run_id, metrics) ∧
      findRecord model_id (retrainEndpoint est model_id X y st).2.catalog = none ∧
      findRecord new_run_id (retrainEndpoint est model_id X y st).2.catalog
        = some (create_model_record new_run_id record.model_type record.params new_uri metrics
            ((train_and_log_model est record.model_type record.params X y st).2.clock))) := by
  have hframe := train_state_frame est record.model_type record.params X y st
  rcases htr : train_and_log_model est record.model_type record.params X y st with ⟨res, st1⟩
  rw [htr] at hframe
  dsimp only at hframe ⊢
  constructor
  · intro e he
    replace he : res = .error e := he
    subst he
    unfold retrainEndpoint
    rw [hfind]
    dsimp only
    rw [htr]
    dsimp only
    exact ⟨rfl, hframe.1⟩
  · intro new_run_id metrics new_uri hok hfresh
    replace hok : res = .ok (new_run_id, metrics, new_uri) := hok
    subst hok
    have hmem := findRecord_some model_id st.catalog record hfind
    have hne : new_run_id ≠ model_id := by
      intro heq
      exact hfresh record hmem.1 (hmem.2.trans heq.symm)
    unfold retrainEndpoint
    rw [hfind]
    dsimp only
    rw [htr]
    dsimp only
    refine ⟨rfl, ?_, ?_⟩
    · rw [findRecord_append model_id _ _ (findRecord_filter_self model_id st1.catalog)]
      unfold findRecord
      simp [create_model_record, hne]
    · have h1 : findRecord new_run_id (st1.catalog.filter (fun r => !(r.id == model_id)))
          = none := by
        unfold findRecord
        rw [List.find?_eq_none]
        intro x hx
        have hx2 : x ∈ st.catalog := by
          rw [← hframe.1]
          exact List.mem_of_mem_filter hx
        simp [hfresh x hx2]
      rw [findRecord_append new_run_id _ _ h1]
      unfold findRecord
      simp [create_model_record]

theorem retrain_catalog_semantics_witness :
    (retrainEndpoint estEcho "old-run" demoX demoY catState).1
      = .ok ("run-0", demoMetrics) ∧
    findRecord "old-run" (retrainEndpoint estEcho "old-run" demoX demoY catState).2.catalog
      = none ∧
    findRecord "run-0" (retrainEndpoint estEcho "old-run" demoX demoY catState).2.catalog
      = some (create_model_record "run-0" demoRecord.model_type demoRecord.params
          "runs:/run-0/model" demoMetrics
          ((train_and_log_model estEcho demoRecord.model_type demoRecord.params
              demoX demoY catState).2.clock)) :=
  (retrain_catalog_semantics estEcho "old-run" demoX demoY catState demoRecord rfl).2
    "run-0" demoMetrics "runs:/run-0/model" rfl (by decide)
